import Mathlib

/-!
Verification of the SmartPot firmware UI (`Firmware/smart_plant_ui copy 48.py`).

The firmware is shallowly embedded: MicroPython integers become `ℤ` (or `ℕ`
where the source value is a non-negative register/byte), `time.ticks_ms`
timestamps become `ℤ` with `time.ticks_diff a b` modelled as `a - b`,
Python `//` (floor division) becomes `Int.fdiv`, and Python `int()` applied
to a quotient (truncation toward zero) becomes `Int.tdiv`; the numerators
appearing in the touch calibration are small enough that the intermediate
float arithmetic of the source is exact up to the truncation, so the
integer model is faithful.  Side effects (SPI writes, sounds) are made
explicit as returned data.
-/

namespace SmartPot

/-! ### Display / UI state (`SmartPlantDisplay`)

The fields of `SmartPlantDisplay` that the touch handler, the auto-mode
timeout check and the motion-timeout settings read or write. -/

structure DisplayState where
  width : ℤ
  height : ℤ
  current_screen : ℤ
  manual_mode : Bool
  last_touch_time : ℤ
  motion_timeout_seconds : ℤ
  motion_timeout : ℤ
  screen_needs_redraw : Bool
  deriving Repr, DecidableEq

/-- The `SmartPlantDisplay.__init__` values of the fields modelled in
`DisplayState` (`width=320`, `height=240`, `current_screen=0`,
`manual_mode=False`, `last_touch_time=0`, `motion_timeout_seconds=30`,
`motion_timeout=30000`, `screen_needs_redraw=True`). -/
def initDisplay : DisplayState :=
  { width := 320
    height := 240
    current_screen := 0
    manual_mode := false
    last_touch_time := 0
    motion_timeout_seconds := 30
    motion_timeout := 30000
    screen_needs_redraw := true }

/-- The screen-0 (dashboard) branch of `handle_touch`: the two widget
rows, each widget sending the UI to the detail screen. -/
def main_screen_touch (s : DisplayState) (x y : ℤ) : DisplayState :=
  if 20 ≤ y ∧ y ≤ 100 then
    if 10 ≤ x ∧ x ≤ 100 then { s with current_screen := 1 }
    else if 110 ≤ x ∧ x ≤ 200 then { s with current_screen := 1 }
    else if 210 ≤ x ∧ x ≤ 300 then { s with current_screen := 1 }
    else s
  else if 110 ≤ y ∧ y ≤ 190 then
    if 10 ≤ x ∧ x ≤ 100 then { s with current_screen := 1 }
    else if 110 ≤ x ∧ x ≤ 300 then { s with current_screen := 1 }
    else s
  else s

/-- The main-button row of the settings screen (`settings_y <= y <=
settings_y + 40`): the `-10s` button at `x ∈ [20, 80]` and the `+10s`
button at `x ∈ [240, 300]`.  The source assigns
`motion_timeout_seconds` first and then `motion_timeout` from the
updated value. -/
def settings_row_coarse (s : DisplayState) (x : ℤ) : DisplayState :=
  if 20 ≤ x ∧ x ≤ 80 then
    let secs := max 5 (s.motion_timeout_seconds - 10)
    { s with motion_timeout_seconds := secs,
             motion_timeout := secs * 1000,
             screen_needs_redraw := true }
  else if 240 ≤ x ∧ x ≤ 300 then
    let secs := min 300 (s.motion_timeout_seconds + 10)
    { s with motion_timeout_seconds := secs,
             motion_timeout := secs * 1000,
             screen_needs_redraw := true }
  else s

/-- The fine-adjustment row of the settings screen (`fine_y <= y <=
fine_y + 30`): the `-5s` button at `x ∈ [50, 100]` and the `+5s`
button at `x ∈ [220, 270]`. -/
def settings_row_fine (s : DisplayState) (x : ℤ) : DisplayState :=
  if 50 ≤ x ∧ x ≤ 100 then
    let secs := max 5 (s.motion_timeout_seconds - 5)
    { s with motion_timeout_seconds := secs,
             motion_timeout := secs * 1000,
             screen_needs_redraw := true }
  else if 220 ≤ x ∧ x ≤ 270 then
    let secs := min 300 (s.motion_timeout_seconds + 5)
    { s with motion_timeout_seconds := secs,
             motion_timeout := secs * 1000,
             screen_needs_redraw := true }
  else s

/-- The preset row of the settings screen (`preset_y <= y <=
preset_y + 25`): presets `[15, 30, 60, 120]` on buttons of width 60
starting at `x = 20 + i * 70`, first match wins. -/
def settings_row_preset (s : DisplayState) (x : ℤ) : DisplayState :=
  if 20 ≤ x ∧ x ≤ 80 then
    { s with motion_timeout_seconds := 15,
             motion_timeout := 15 * 1000,
             screen_needs_redraw := true }
  else if 90 ≤ x ∧ x ≤ 150 then
    { s with motion_timeout_seconds := 30,
             motion_timeout := 30 * 1000,
             screen_needs_redraw := true }
  else if 160 ≤ x ∧ x ≤ 220 then
    { s with motion_timeout_seconds := 60,
             motion_timeout := 60 * 1000,
             screen_needs_redraw := true }
  else if 230 ≤ x ∧ x ≤ 290 then
    { s with motion_timeout_seconds := 120,
             motion_timeout := 120 * 1000,
             screen_needs_redraw := true }
  else s

/-- The screen-2 (settings) branch of `handle_touch`: with
`settings_y = 50`, `fine_y = settings_y + 50 = 100` and
`preset_y = fine_y + 40 = 140`, dispatches on the three button rows
(`y ∈ [50, 90]`, `y ∈ [100, 130]`, `y ∈ [140, 165]`). -/
def settings_touch (s : DisplayState) (x y : ℤ) : DisplayState :=
  if 50 ≤ y ∧ y ≤ 90 then settings_row_coarse s x
  else if 100 ≤ y ∧ y ≤ 130 then settings_row_fine s x
  else if 140 ≤ y ∧ y ≤ 165 then settings_row_preset s x
  else s

/-- The hit-test chain of `SmartPlantDisplay.handle_touch`:
everything between recording the touch and the final screen-change
comparison.  `s` is the state after `manual_mode`/`last_touch_time`
have been set: first the navigation bar, otherwise the branch of the
current screen (any touch on the detail screen returns to the
dashboard). -/
def handle_touch_body (s : DisplayState) (x y : ℤ) : DisplayState :=
  let nav_y := s.height - 40
  if y ≥ nav_y then
    let button_width := s.width / 2
    if x < button_width then
      { s with current_screen := 0 }
    else
      { s with current_screen := 2 }
  else
    if s.current_screen = 0 then main_screen_touch s x y
    else if s.current_screen = 1 then
      { s with current_screen := 0 }
    else if s.current_screen = 2 then settings_touch s x y
    else s

/-- `SmartPlantDisplay.handle_touch(x, y)` called at tick-time `t`:
records the touch (manual mode on, touch time), runs the hit-test
chain, and finally sets the redraw flag when the screen changed. -/
def handle_touch (s : DisplayState) (x y t : ℤ) : DisplayState :=
  let old_screen := s.current_screen
  let s1 := { s with manual_mode := true, last_touch_time := t }
  let s2 := handle_touch_body s1 x y
  if old_screen ≠ s2.current_screen then
    { s2 with screen_needs_redraw := true }
  else s2

/-- `SmartPlantDisplay.check_auto_mode_timeout()` called at tick-time `t`:
leaves auto mode untouched unless manual mode has been idle for more
than 60000 ms. -/
def check_auto_mode_timeout (s : DisplayState) (t : ℤ) : DisplayState :=
  if s.manual_mode then
    if t - s.last_touch_time > 60000 then
      { s with manual_mode := false }
    else s
  else s

/-- The widget rectangles hit-tested on the main screen (screen 0):
two widget rows, three rectangles in the first and two in the second. -/
def inMainWidget (x y : ℤ) : Prop :=
  (20 ≤ y ∧ y ≤ 100 ∧
    ((10 ≤ x ∧ x ≤ 100) ∨ (110 ≤ x ∧ x ≤ 200) ∨ (210 ≤ x ∧ x ≤ 300))) ∨
  (110 ≤ y ∧ y ≤ 190 ∧
    ((10 ≤ x ∧ x ≤ 100) ∨ (110 ≤ x ∧ x ≤ 300)))

/-- The button rectangles hit-tested on the settings screen (screen 2):
the ±10 s row at `y ∈ [50,90]`, the ±5 s row at `y ∈ [100,130]`, and the
four preset buttons at `y ∈ [140,165]`. -/
def inSettingsButton (x y : ℤ) : Prop :=
  (50 ≤ y ∧ y ≤ 90 ∧ ((20 ≤ x ∧ x ≤ 80) ∨ (240 ≤ x ∧ x ≤ 300))) ∨
  (100 ≤ y ∧ y ≤ 130 ∧ ((50 ≤ x ∧ x ≤ 100) ∨ (220 ≤ x ∧ x ≤ 270))) ∨
  (140 ≤ y ∧ y ≤ 165 ∧
    ((20 ≤ x ∧ x ≤ 80) ∨ (90 ≤ x ∧ x ≤ 150) ∨
     (160 ≤ x ∧ x ≤ 220) ∨ (230 ≤ x ∧ x ≤ 290)))

/-- The hit regions of the screen currently shown, above the navigation
bar: the widget rectangles on screen 0, the whole area on screen 1
(any tap returns to the dashboard), the settings buttons on screen 2. -/
def inHitRegion (screen x y : ℤ) : Prop :=
  if screen = 0 then inMainWidget x y
  else if screen = 1 then True
  else if screen = 2 then inSettingsButton x y
  else False

/-! ### Renderer (`SmartPlantDisplay.fill_rect` / `set_window`) -/

/-- The window coordinates `(x0, y0, x1, y1)` that
`SmartPlantDisplay.fill_rect(x, y, w, h, color)` passes to
`set_window`: the width is trimmed when `x + w` overflows `width`, the
height when `y + h` overflows `height`, and the window is
`(x, y, x+w-1, y+h-1)` with the trimmed extents. -/
def fill_rect_window (width height x y w h : ℤ) : ℤ × ℤ × ℤ × ℤ :=
  let w1 := if x + w > width then width - x else w
  let h1 := if y + h > height then height - y else h
  (x, y, x + w1 - 1, y + h1 - 1)

/-! ### `color565` -/

/-- `color565(r, g, b)` on integer channels:
`(r & 0xf8) << 8 | (g & 0xfc) << 3 | b >> 3`. -/
def color565 (r g b : ℕ) : ℕ :=
  ((r &&& 0xf8) <<< 8) ||| ((g &&& 0xfc) <<< 3) ||| (b >>> 3)

/-! ### Touch controller (`TouchController.get_touch`)

Calibration constants from `TouchController.__init__`:
`cal_x_min = cal_y_min = 200`, `cal_x_max = cal_y_max = 3800`. -/

def cal_min : ℤ := 200
def cal_max : ℤ := 3800

/-- One axis of the calibration applied to an averaged raw value:
`int((raw - cal_min) * extent / (cal_max - cal_min))` followed by the
clamp `max(0, min(extent - 1, ·))`.  `int()` truncates toward zero,
hence `Int.tdiv`. -/
def touch_cal (extent rawv : ℤ) : ℤ :=
  max 0 (min (extent - 1) (Int.tdiv ((rawv - cal_min) * extent) (cal_max - cal_min)))

/-- The sampling loop of `get_touch`: given the three raw `(x, y)`
pairs read from the bus, accumulates `x_sum`, `y_sum` and
`valid_readings` over the pairs whose both coordinates lie strictly
inside `(100, 4000)`. -/
def sample_loop : List (ℤ × ℤ) → ℤ × ℤ × ℤ
  | [] => (0, 0, 0)
  | (xr, yr) :: rest =>
    let acc := sample_loop rest
    if xr > 100 ∧ yr > 100 ∧ xr < 4000 ∧ yr < 4000 then
      (acc.1 + xr, acc.2.1 + yr, acc.2.2 + 1)
    else acc

/-- The plausibility filter of `get_touch` as a predicate on a raw pair. -/
def valid_pair (p : ℤ × ℤ) : Prop :=
  p.1 > 100 ∧ p.2 > 100 ∧ p.1 < 4000 ∧ p.2 < 4000

instance : DecidablePred valid_pair := by
  intro p; unfold valid_pair; infer_instance

/-- `TouchController.get_touch()`: `irq` is the value of the interrupt
line (1 = no contact) and `samples` the list of raw pairs the three
loop iterations would read.  Returns the calibrated screen point, or
`none` when there is no contact or no sample passes the plausibility
band.  Python `//` on the non-negative sums is `Int.fdiv`. -/
def get_touch (irq : ℕ) (samples : List (ℤ × ℤ)) : Option (ℤ × ℤ) :=
  if irq = 1 then none
  else
    let acc := sample_loop samples
    if acc.2.2 = 0 then none
    else
      let x_avg := Int.fdiv acc.1 acc.2.2
      let y_avg := Int.fdiv acc.2.1 acc.2.2
      some (touch_cal 320 x_avg, touch_cal 240 y_avg)

/-- The number of raw-coordinate bus reads `get_touch` performs: none
when the interrupt line shows no contact, otherwise two reads (X and Y)
per loop iteration. -/
def get_touch_bus_reads (irq : ℕ) (samples : List (ℤ × ℤ)) : ℕ :=
  if irq = 1 then 0 else 2 * samples.length

/-! ### Plant-health score (`SmartPlantDisplay.update_sensor_data`) -/

/-- The plant-health computation at the end of `update_sensor_data`:
starts at 100, subtracts 15 when the temperature leaves `[18, 28]`,
20 when the light value is below 300, 15 when the humidity leaves
`[40, 80]`, and clamps the result to `[0, 100]`.  Temperature and
humidity are floats in the source, modelled as `ℚ`. -/
def plant_health (temperature : ℚ) (light : ℤ) (humidity : ℚ) : ℤ :=
  let health : ℤ := 100
  let health := if temperature < 18 ∨ temperature > 28 then health - 15 else health
  let health := if light < 300 then health - 20 else health
  let health := if humidity < 40 ∨ humidity > 80 then health - 15 else health
  max 0 (min 100 health)

/-! ### Motion sensor (`SmartPlantDisplay.read_motion_sensor`) -/

/-- The audio cues `read_motion_sensor` can emit. -/
inductive Sound where
  | punishment
  | reward
  deriving Repr, DecidableEq

/-- The fields of `SmartPlantDisplay` read or written by
`read_motion_sensor`. -/
structure MotionState where
  last_motion_time : ℤ
  last_motion_check : ℤ
  motion_timeout : ℤ
  audio_played : Bool
  reward_played : Bool
  deriving Repr, DecidableEq

/-- One call of `read_motion_sensor` at tick-time `t` with the motion
pin reading `motion`: returns the new state, the sounds played during
the call, and the boolean return value.  On motion the reward is
latched by `reward_played`; with no motion the 5 s check interval gates
the timeout test, and the punishment is latched by `audio_played`. -/
def read_motion_sensor (s : MotionState) (t : ℤ) (motion : ℕ) :
    MotionState × List Sound × Bool :=
  if motion = 1 then
    let sounds := if s.reward_played then [] else [Sound.reward]
    ({ s with last_motion_time := t, audio_played := false,
              reward_played := true }, sounds, true)
  else
    let s1 := { s with reward_played := false }
    if t - s1.last_motion_check > 5000 then
      let s2 := { s1 with last_motion_check := t }
      if t - s2.last_motion_time > s2.motion_timeout then
        if s2.audio_played then (s2, [], false)
        else ({ s2 with audio_played := true }, [Sound.punishment], false)
      else (s2, [], false)
    else (s1, [], false)

/-- A sequence of `read_motion_sensor` calls, each given as a pair of a
tick-time and a motion-pin value; returns the final state and the
concatenation of the sounds played. -/
def run_motion (s : MotionState) : List (ℤ × ℕ) → MotionState × List Sound
  | [] => (s, [])
  | (t, m) :: rest =>
    let step := read_motion_sensor s t m
    let tail := run_motion step.1 rest
    (tail.1, step.2.1 ++ tail.2)

/-! ### Helper lemmas -/

set_option maxRecDepth 4000 in
lemma land_248_shift (r : ℕ) (h : r < 256) :
    (r &&& 248) <<< 8 = 2048 * (r / 8) := by
  revert h
  revert r
  decide

set_option maxRecDepth 4000 in
lemma land_252_shift (g : ℕ) (h : g < 256) :
    (g &&& 252) <<< 3 = 32 * (g / 4) := by
  revert h
  revert g
  decide

/-! ### C9: color565 packs 5-6-5 -/

/-- C9. `color565` keeps the top 5 bits of red, the top 6 bits of green
and the top 5 bits of blue, packed as a 16-bit 5-6-5 value
(`r/8` in bits 11-15, `g/4` in bits 5-10, `b/8` in bits 0-4), and in
particular maps pure red to `0xF800`, pure green to `0x07E0`, pure blue
to `0x001F` and white to `0xFFFF`. -/
theorem color565_spec :
    (∀ r g b : ℕ, r < 256 → g < 256 → b < 256 →
      color565 r g b = r / 8 * 2 ^ 11 + g / 4 * 2 ^ 5 + b / 8) ∧
    color565 255 0 0 = 0xF800 ∧ color565 0 255 0 = 0x07E0 ∧
    color565 0 0 255 = 0x001F ∧ color565 255 255 255 = 0xFFFF := by
  refine ⟨?_, by decide, by decide, by decide, by decide⟩
  intro r g b hr hg hb
  unfold color565
  rw [land_248_shift r hr, land_252_shift g hg]
  have h3 : b >>> 3 = b / 8 := by
    rw [Nat.shiftRight_eq_div_pow]
  rw [h3]
  have hglt : 32 * (g / 4) < 2 ^ 11 := by omega
  have hor1 : 2048 * (r / 8) ||| 32 * (g / 4) = 2048 * (r / 8) + 32 * (g / 4) := by
    have := Nat.mul_add_lt_is_or hglt (r / 8)
    norm_num at this ⊢
    omega
  rw [hor1]
  have hsum : 2048 * (r / 8) + 32 * (g / 4) = 32 * (64 * (r / 8) + g / 4) := by ring
  have hblt : b / 8 < 2 ^ 5 := by omega
  have hor2 : 32 * (64 * (r / 8) + g / 4) ||| b / 8
      = 32 * (64 * (r / 8) + g / 4) + b / 8 := by
    have := Nat.mul_add_lt_is_or hblt (64 * (r / 8) + g / 4)
    norm_num at this ⊢
    omega
  rw [hsum, hor2]
  ring

/-- C9 witness: the packing equation evaluated at `(200, 100, 50)`. -/
theorem color565_spec_witness :
    color565 200 100 50 = 200 / 8 * 2 ^ 11 + 100 / 4 * 2 ^ 5 + 50 / 8 :=
  color565_spec.1 200 100 50 (by decide) (by decide) (by decide)

/-! ### C5: plant-health score -/

/-- C5. The plant-health score starts at 100, subtracts 15 when the
temperature is outside `[18, 28]`, 20 when the light value is below
300, 15 when the humidity is outside `[40, 80]`, and is clamped to
`[0, 100]`; in particular `(22, 750, 65)` yields 100 and
`(30, 750, 65)` yields 85. -/
theorem plant_health_spec :
    (∀ (t : ℚ) (l : ℤ) (h : ℚ),
      plant_health t l h =
        max 0 (min 100
          (100 - (if t < 18 ∨ t > 28 then 15 else 0)
               - (if l < 300 then 20 else 0)
               - (if h < 40 ∨ h > 80 then 15 else 0)))) ∧
    plant_health 22 750 65 = 100 ∧ plant_health 30 750 65 = 85 := by
  refine ⟨?_, by decide, by decide⟩
  intro t l h
  unfold plant_health
  split_ifs <;> norm_num

/-! ### C1: fill_rect window clipping -/

/-- C1 counterexample: `fill_rect(-10, 0, 20, 10, c)` issues the
window start column `-10` to `set_window`, a coordinate outside
`[0, 320)`: negative origins are not clipped. -/
theorem fill_rect_window_counterexample :
    (fill_rect_window 320 240 (-10) 0 20 10).1 = -10 ∧
    ¬ (0 ≤ (fill_rect_window 320 240 (-10) 0 20 10).1) := by
  decide

/-- C1 amended. For rectangles whose origin lies on the screen
(`0 ≤ x < 320`, `0 ≤ y < 240`) and whose extents are positive, the
window coordinates issued to `set_window` are clipped to
`[0, 320) × [0, 240)`: overflow of `x + w` or `y + h` past the screen
edge is trimmed.  (Negative or off-screen origins are passed through
unclipped, which is what the counterexample exhibits.) -/
theorem fill_rect_window_clipped (x y w h : ℤ)
    (hx0 : 0 ≤ x) (hx1 : x < 320) (hy0 : 0 ≤ y) (hy1 : y < 240)
    (hw : 0 < w) (hh : 0 < h) :
    0 ≤ (fill_rect_window 320 240 x y w h).1 ∧
    (fill_rect_window 320 240 x y w h).1 < 320 ∧
    0 ≤ (fill_rect_window 320 240 x y w h).2.1 ∧
    (fill_rect_window 320 240 x y w h).2.1 < 240 ∧
    (fill_rect_window 320 240 x y w h).1 ≤ (fill_rect_window 320 240 x y w h).2.2.1 ∧
    (fill_rect_window 320 240 x y w h).2.2.1 < 320 ∧
    (fill_rect_window 320 240 x y w h).2.1 ≤ (fill_rect_window 320 240 x y w h).2.2.2 ∧
    (fill_rect_window 320 240 x y w h).2.2.2 < 240 := by
  unfold fill_rect_window
  dsimp only
  split_ifs <;> refine ⟨by omega, by omega, by omega, by omega,
    by omega, by omega, by omega, by omega⟩

/-- C1 witness: the amended clipping statement at the oversized
rectangle `(5, 6, 400, 300)`. -/
theorem fill_rect_window_clipped_witness :
    0 ≤ (fill_rect_window 320 240 5 6 400 300).1 ∧
    (fill_rect_window 320 240 5 6 400 300).1 < 320 ∧
    0 ≤ (fill_rect_window 320 240 5 6 400 300).2.1 ∧
    (fill_rect_window 320 240 5 6 400 300).2.1 < 240 ∧
    (fill_rect_window 320 240 5 6 400 300).1 ≤ (fill_rect_window 320 240 5 6 400 300).2.2.1 ∧
    (fill_rect_window 320 240 5 6 400 300).2.2.1 < 320 ∧
    (fill_rect_window 320 240 5 6 400 300).2.1 ≤ (fill_rect_window 320 240 5 6 400 300).2.2.2 ∧
    (fill_rect_window 320 240 5 6 400 300).2.2.2 < 240 :=
  fill_rect_window_clipped 5 6 400 300 (by decide) (by decide) (by decide)
    (by decide) (by decide) (by decide)

/-! ### C3: auto-mode timeout -/

/-- C3. `check_auto_mode_timeout` leaves the state unchanged while at
most 60000 ms have elapsed since the last touch; at a check where the
elapsed time exceeds 60000 ms and manual mode is on, it clears
`manual_mode` (and touches nothing else); once `manual_mode` is off it
is the identity, so the transition cannot repeat until a new touch. -/
theorem check_auto_mode_timeout_spec :
    (∀ (s : DisplayState) (t : ℤ), t - s.last_touch_time ≤ 60000 →
        check_auto_mode_timeout s t = s) ∧
    (∀ (s : DisplayState) (t : ℤ), s.manual_mode = true →
        t - s.last_touch_time > 60000 →
        check_auto_mode_timeout s t = { s with manual_mode := false }) ∧
    (∀ (s : DisplayState) (t : ℤ), s.manual_mode = false →
        check_auto_mode_timeout s t = s) := by
  refine ⟨?_, ?_, ?_⟩ <;> intro s t
  · intro hle
    unfold check_auto_mode_timeout
    split_ifs with h1 h2
    · omega
    · rfl
    · rfl
  · intro hm hgt
    unfold check_auto_mode_timeout
    rw [if_pos hm, if_pos hgt]
  · intro hm
    unfold check_auto_mode_timeout
    rw [hm]
    simp

/-- C3 witness: on the initial state, a check at `t = 60000` changes
nothing, and after a touch at time 0, a check at `t = 70000` clears
manual mode. -/
theorem check_auto_mode_timeout_spec_witness :
    check_auto_mode_timeout initDisplay 60000 = initDisplay ∧
    check_auto_mode_timeout { initDisplay with manual_mode := true } 70000
      = { initDisplay with manual_mode := false } :=
  ⟨check_auto_mode_timeout_spec.1 initDisplay 60000 (by decide),
   check_auto_mode_timeout_spec.2.1 { initDisplay with manual_mode := true } 70000
     rfl (by decide)⟩

/-! ### C4: touch calibration -/

/-- The pre-clamp linear map of `touch_cal` is monotone once the raw
value is at least `cal_min`, and non-positive below `cal_min`; the
clamp then makes the whole map monotone. -/
lemma touch_cal_mono (extent : ℤ) (hext : 0 < extent) {a b : ℤ} (hab : a ≤ b) :
    touch_cal extent a ≤ touch_cal extent b := by
  have hd : (0:ℤ) < cal_max - cal_min := by norm_num [cal_max, cal_min]
  unfold touch_cal
  rcases le_or_lt cal_min a with ha | ha
  · have hnum : (a - cal_min) * extent ≤ (b - cal_min) * extent :=
      mul_le_mul_of_nonneg_right (by omega) hext.le
    have ha0 : 0 ≤ (a - cal_min) * extent := mul_nonneg (by omega) hext.le
    have hb0 : 0 ≤ (b - cal_min) * extent := mul_nonneg (by omega) hext.le
    rw [Int.tdiv_eq_ediv ha0 hd.le, Int.tdiv_eq_ediv hb0 hd.le]
    exact max_le_max le_rfl (min_le_min le_rfl (Int.ediv_le_ediv hd hnum))
  · have hnum : (a - cal_min) * extent ≤ 0 := by
      simpa using mul_le_mul_of_nonneg_right (show a - cal_min ≤ 0 by omega) hext.le
    have htd : Int.tdiv ((a - cal_min) * extent) (cal_max - cal_min) ≤ 0 := by
      have hpos : 0 ≤ Int.tdiv (-((a - cal_min) * extent)) (cal_max - cal_min) :=
        Int.tdiv_nonneg (by omega) hd.le
      rw [Int.neg_tdiv] at hpos
      omega
    have hleft : max 0 (min (extent - 1)
        (Int.tdiv ((a - cal_min) * extent) (cal_max - cal_min))) = 0 :=
      max_eq_left (le_trans (min_le_right _ _) htd)
    rw [hleft]
    exact le_max_left _ _

/-- C4. The calibration map of `get_touch` (linear map followed by the
clamp) is monotone non-decreasing on each axis, sends `cal_min = 200`
to screen coordinate 0 and `cal_max = 3800` to the last screen
coordinate (319 on x, 239 on y), and always lands in
`[0, 319]` resp. `[0, 239]`. -/
theorem touch_cal_spec :
    (∀ a b : ℤ, a ≤ b → touch_cal 320 a ≤ touch_cal 320 b) ∧
    (∀ a b : ℤ, a ≤ b → touch_cal 240 a ≤ touch_cal 240 b) ∧
    touch_cal 320 cal_min = 0 ∧ touch_cal 320 cal_max = 319 ∧
    touch_cal 240 cal_min = 0 ∧ touch_cal 240 cal_max = 239 ∧
    (∀ r : ℤ, 0 ≤ touch_cal 320 r ∧ touch_cal 320 r ≤ 319) ∧
    (∀ r : ℤ, 0 ≤ touch_cal 240 r ∧ touch_cal 240 r ≤ 239) := by
  refine ⟨fun a b hab => touch_cal_mono 320 (by norm_num) hab,
          fun a b hab => touch_cal_mono 240 (by norm_num) hab,
          by decide, by decide, by decide, by decide, ?_, ?_⟩ <;>
    intro r <;> unfold touch_cal <;>
    exact ⟨le_max_left _ _,
      max_le (by norm_num) (le_trans (min_le_left _ _) (by norm_num))⟩

/-- C4 witness: monotonicity evaluated on concrete raw values. -/
theorem touch_cal_spec_witness :
    touch_cal 320 1000 ≤ touch_cal 320 2500 ∧
    touch_cal 240 150 ≤ touch_cal 240 3900 :=
  ⟨touch_cal_spec.1 1000 2500 (by decide),
   touch_cal_spec.2.1 150 3900 (by decide)⟩

/-! ### C6: get_touch sampling -/

/-- The sampling loop accumulates exactly the sums and the count of
the samples that pass the plausibility band. -/
lemma sample_loop_eq (samples : List (ℤ × ℤ)) :
    sample_loop samples =
      (((samples.filter fun p => decide (valid_pair p)).map Prod.fst).sum,
       ((samples.filter fun p => decide (valid_pair p)).map Prod.snd).sum,
       ((samples.filter fun p => decide (valid_pair p)).length : ℤ)) := by
  induction samples with
  | nil => simp [sample_loop]
  | cons hd tl ih =>
    obtain ⟨xr, yr⟩ := hd
    by_cases hv : xr > 100 ∧ yr > 100 ∧ xr < 4000 ∧ yr < 4000
    · have hvb : valid_pair (xr, yr) := hv
      simp [sample_loop, hv, hvb, ih]
      exact ⟨by ring, by ring⟩
    · have hvb : ¬ valid_pair (xr, yr) := hv
      simp [sample_loop, hv, hvb, ih]

/-- C6. `get_touch` returns `none` with zero bus reads when the
interrupt line reads 1; otherwise it performs two raw reads per loop
iteration, keeps exactly the sample pairs lying strictly inside
`(100, 4000)` on both axes, returns `none` when no pair survives, and
otherwise calibrates the per-axis integer average (floor division) of
the surviving pairs. -/
theorem get_touch_spec :
    (∀ samples, get_touch 1 samples = none ∧ get_touch_bus_reads 1 samples = 0) ∧
    (∀ irq samples, irq ≠ 1 →
        get_touch_bus_reads irq samples = 2 * samples.length) ∧
    (∀ irq samples, irq ≠ 1 →
        (samples.filter fun p => decide (valid_pair p)) = [] →
        get_touch irq samples = none) ∧
    (∀ irq samples, irq ≠ 1 →
        (samples.filter fun p => decide (valid_pair p)) ≠ [] →
        get_touch irq samples =
          some (touch_cal 320 (Int.fdiv
                  (((samples.filter fun p => decide (valid_pair p)).map Prod.fst).sum)
                  ((samples.filter fun p => decide (valid_pair p)).length : ℤ)),
                touch_cal 240 (Int.fdiv
                  (((samples.filter fun p => decide (valid_pair p)).map Prod.snd).sum)
                  ((samples.filter fun p => decide (valid_pair p)).length : ℤ)))) := by
  refine ⟨fun samples => ⟨rfl, rfl⟩, fun irq samples hirq => ?_,
          fun irq samples hirq hempty => ?_, fun irq samples hirq hne => ?_⟩
  · unfold get_touch_bus_reads
    rw [if_neg hirq]
  · simp only [get_touch, sample_loop_eq, hempty]
    rw [if_neg hirq]
    simp
  · have hpos : 0 < (samples.filter fun p => decide (valid_pair p)).length :=
      List.length_pos.mpr hne
    have hlen : ((samples.filter fun p => decide (valid_pair p)).length : ℤ) ≠ 0 := by
      omega
    simp only [get_touch, sample_loop_eq]
    rw [if_neg hirq, if_neg hlen]

/-- C6 witness: no contact gives `none` with zero reads; with contact,
three samples of which the middle one is implausible give the
calibrated average of the two surviving pairs. -/
theorem get_touch_spec_witness :
    get_touch 1 [((2000 : ℤ), (2000 : ℤ))] = none ∧
    get_touch_bus_reads 1 [((2000 : ℤ), (2000 : ℤ))] = 0 ∧
    get_touch_bus_reads 0 [((2000 : ℤ), (2000 : ℤ)), (50, 50), (3000, 1000)] = 6 ∧
    get_touch 0 [((50 : ℤ), (50 : ℤ))] = none ∧
    get_touch 0 [((2000 : ℤ), (2000 : ℤ)), (50, 50), (3000, 1000)] =
      some (touch_cal 320 2500, touch_cal 240 1500) := by
  refine ⟨(get_touch_spec.1 _).1, (get_touch_spec.1 _).2,
          get_touch_spec.2.1 0 _ (by decide), ?_, ?_⟩
  · exact get_touch_spec.2.2.1 0 _ (by decide) (by decide)
  · have h := get_touch_spec.2.2.2 0
      [((2000 : ℤ), (2000 : ℤ)), (50, 50), (3000, 1000)] (by decide) (by decide)
    simpa using h

lemma settings_row_coarse_cases (s : DisplayState) (x : ℤ) :
    settings_row_coarse s x = s ∨
    ∃ secs : ℤ,
      (secs = max 5 (s.motion_timeout_seconds - 10) ∨
       secs = min 300 (s.motion_timeout_seconds + 10)) ∧
      settings_row_coarse s x =
        { s with motion_timeout_seconds := secs,
                 motion_timeout := secs * 1000,
                 screen_needs_redraw := true } := by
  unfold settings_row_coarse
  split_ifs
  · exact Or.inr ⟨_, Or.inl rfl, rfl⟩
  · exact Or.inr ⟨_, Or.inr rfl, rfl⟩
  · exact Or.inl rfl

lemma settings_row_fine_cases (s : DisplayState) (x : ℤ) :
    settings_row_fine s x = s ∨
    ∃ secs : ℤ,
      (secs = max 5 (s.motion_timeout_seconds - 5) ∨
       secs = min 300 (s.motion_timeout_seconds + 5)) ∧
      settings_row_fine s x =
        { s with motion_timeout_seconds := secs,
                 motion_timeout := secs * 1000,
                 screen_needs_redraw := true } := by
  unfold settings_row_fine
  split_ifs
  · exact Or.inr ⟨_, Or.inl rfl, rfl⟩
  · exact Or.inr ⟨_, Or.inr rfl, rfl⟩
  · exact Or.inl rfl

lemma settings_row_preset_cases (s : DisplayState) (x : ℤ) :
    settings_row_preset s x = s ∨
    ∃ secs : ℤ,
      (secs = 15 ∨ secs = 30 ∨ secs = 60 ∨ secs = 120) ∧
      settings_row_preset s x =
        { s with motion_timeout_seconds := secs,
                 motion_timeout := secs * 1000,
                 screen_needs_redraw := true } := by
  unfold settings_row_preset
  split_ifs
  · exact Or.inr ⟨15, by norm_num, rfl⟩
  · exact Or.inr ⟨30, by norm_num, rfl⟩
  · exact Or.inr ⟨60, by norm_num, rfl⟩
  · exact Or.inr ⟨120, by norm_num, rfl⟩
  · exact Or.inl rfl

lemma settings_touch_cases (s : DisplayState) (x y : ℤ) :
    settings_touch s x y = s ∨
    ∃ secs : ℤ,
      (secs = max 5 (s.motion_timeout_seconds - 10) ∨
       secs = min 300 (s.motion_timeout_seconds + 10) ∨
       secs = max 5 (s.motion_timeout_seconds - 5) ∨
       secs = min 300 (s.motion_timeout_seconds + 5) ∨
       secs = 15 ∨ secs = 30 ∨ secs = 60 ∨ secs = 120) ∧
      settings_touch s x y =
        { s with motion_timeout_seconds := secs,
                 motion_timeout := secs * 1000,
                 screen_needs_redraw := true } := by
  unfold settings_touch
  split_ifs
  · rcases settings_row_coarse_cases s x with h | ⟨secs, hsecs, h⟩
    · exact Or.inl h
    · exact Or.inr ⟨secs, by tauto, h⟩
  · rcases settings_row_fine_cases s x with h | ⟨secs, hsecs, h⟩
    · exact Or.inl h
    · exact Or.inr ⟨secs, by tauto, h⟩
  · rcases settings_row_preset_cases s x with h | ⟨secs, hsecs, h⟩
    · exact Or.inl h
    · exact Or.inr ⟨secs, by tauto, h⟩
  · exact Or.inl rfl


lemma settings_row_coarse_hit (s : DisplayState) (x : ℤ)
    (h : (20 ≤ x ∧ x ≤ 80) ∨ (240 ≤ x ∧ x ≤ 300)) :
    (settings_row_coarse s x).screen_needs_redraw = true := by
  unfold settings_row_coarse
  split_ifs with h1 h2
  · rfl
  · rfl
  · exact absurd h (by tauto)

lemma settings_row_coarse_miss (s : DisplayState) (x : ℤ)
    (h : ¬ ((20 ≤ x ∧ x ≤ 80) ∨ (240 ≤ x ∧ x ≤ 300))) :
    settings_row_coarse s x = s := by
  unfold settings_row_coarse
  split_ifs with h1 h2
  · exact absurd (Or.inl h1) h
  · exact absurd (Or.inr h2) h
  · rfl

lemma settings_row_fine_hit (s : DisplayState) (x : ℤ)
    (h : (50 ≤ x ∧ x ≤ 100) ∨ (220 ≤ x ∧ x ≤ 270)) :
    (settings_row_fine s x).screen_needs_redraw = true := by
  unfold settings_row_fine
  split_ifs with h1 h2
  · rfl
  · rfl
  · exact absurd h (by tauto)

lemma settings_row_fine_miss (s : DisplayState) (x : ℤ)
    (h : ¬ ((50 ≤ x ∧ x ≤ 100) ∨ (220 ≤ x ∧ x ≤ 270))) :
    settings_row_fine s x = s := by
  unfold settings_row_fine
  split_ifs with h1 h2
  · exact absurd (Or.inl h1) h
  · exact absurd (Or.inr h2) h
  · rfl

lemma settings_row_preset_hit (s : DisplayState) (x : ℤ)
    (h : (20 ≤ x ∧ x ≤ 80) ∨ (90 ≤ x ∧ x ≤ 150) ∨
         (160 ≤ x ∧ x ≤ 220) ∨ (230 ≤ x ∧ x ≤ 290)) :
    (settings_row_preset s x).screen_needs_redraw = true := by
  unfold settings_row_preset
  split_ifs with h1 h2 h3 h4
  · rfl
  · rfl
  · rfl
  · rfl
  · exact absurd h (by tauto)

lemma settings_row_preset_miss (s : DisplayState) (x : ℤ)
    (h : ¬ ((20 ≤ x ∧ x ≤ 80) ∨ (90 ≤ x ∧ x ≤ 150) ∨
            (160 ≤ x ∧ x ≤ 220) ∨ (230 ≤ x ∧ x ≤ 290))) :
    settings_row_preset s x = s := by
  unfold settings_row_preset
  split_ifs with h1 h2 h3 h4
  · exact absurd (Or.inl h1) h
  · exact absurd (Or.inr (Or.inl h2)) h
  · exact absurd (Or.inr (Or.inr (Or.inl h3))) h
  · exact absurd (Or.inr (Or.inr (Or.inr h4))) h
  · rfl

lemma settings_touch_hit (s : DisplayState) (x y : ℤ)
    (h : inSettingsButton x y) :
    (settings_touch s x y).screen_needs_redraw = true := by
  unfold inSettingsButton at h
  unfold settings_touch
  split_ifs with h1 h2 h3
  · exact settings_row_coarse_hit s x (by omega)
  · exact settings_row_fine_hit s x (by omega)
  · exact settings_row_preset_hit s x (by omega)
  · exact absurd h (by omega)

lemma settings_touch_miss (s : DisplayState) (x y : ℤ)
    (h : ¬ inSettingsButton x y) :
    settings_touch s x y = s := by
  unfold inSettingsButton at h
  unfold settings_touch
  split_ifs with h1 h2 h3
  · exact settings_row_coarse_miss s x (by omega)
  · exact settings_row_fine_miss s x (by omega)
  · exact settings_row_preset_miss s x (by omega)
  · rfl

lemma main_screen_touch_cases (s : DisplayState) (x y : ℤ) :
    main_screen_touch s x y = s ∨
    main_screen_touch s x y = { s with current_screen := 1 } := by
  unfold main_screen_touch
  split_ifs <;> simp

lemma main_screen_touch_miss (s : DisplayState) (x y : ℤ)
    (h : ¬ inMainWidget x y) :
    main_screen_touch s x y = s := by
  unfold inMainWidget at h
  unfold main_screen_touch
  split_ifs <;> first | rfl | (exfalso; omega)


lemma handle_touch_body_inv (s : DisplayState) (x y : ℤ)
    (hinv : s.motion_timeout = s.motion_timeout_seconds * 1000) :
    (handle_touch_body s x y).motion_timeout
      = (handle_touch_body s x y).motion_timeout_seconds * 1000 := by
  unfold handle_touch_body
  dsimp only
  split_ifs
  · simpa using hinv
  · simpa using hinv
  · rcases main_screen_touch_cases s x y with h | h <;> rw [h] <;> simpa using hinv
  · simpa using hinv
  · rcases settings_touch_cases s x y with h | ⟨secs, hsecs, h⟩
    · rw [h]
      exact hinv
    · simp only [h]
  · exact hinv

lemma handle_touch_body_range (s : DisplayState) (x y : ℤ)
    (h5 : 5 ≤ s.motion_timeout_seconds) (h300 : s.motion_timeout_seconds ≤ 300) :
    5 ≤ (handle_touch_body s x y).motion_timeout_seconds ∧
    (handle_touch_body s x y).motion_timeout_seconds ≤ 300 := by
  unfold handle_touch_body
  dsimp only
  split_ifs
  · simpa using ⟨h5, h300⟩
  · simpa using ⟨h5, h300⟩
  · rcases main_screen_touch_cases s x y with h | h <;> rw [h] <;>
      simpa using ⟨h5, h300⟩
  · simpa using ⟨h5, h300⟩
  · rcases settings_touch_cases s x y with h | ⟨secs, hsecs, h⟩ <;> rw [h]
    · exact ⟨h5, h300⟩
    · simp only
      omega
  · exact ⟨h5, h300⟩

lemma handle_touch_body_settings (s : DisplayState) (x y : ℤ)
    (hscreen : s.current_screen = 2) (hnav : y < s.height - 40) :
    handle_touch_body s x y = settings_touch s x y := by
  unfold handle_touch_body
  dsimp only
  rw [if_neg (by omega : ¬ y ≥ s.height - 40), hscreen]
  norm_num

lemma handle_touch_body_miss (s : DisplayState) (x y : ℤ)
    (hnav : y < s.height - 40) (hmiss : ¬ inHitRegion s.current_screen x y) :
    handle_touch_body s x y = s := by
  unfold inHitRegion at hmiss
  unfold handle_touch_body
  dsimp only
  rw [if_neg (by omega : ¬ y ≥ s.height - 40)]
  by_cases h0 : s.current_screen = 0
  · rw [if_pos h0]
    rw [h0] at hmiss
    norm_num at hmiss
    exact main_screen_touch_miss s x y hmiss
  · rw [if_neg h0]
    by_cases h1 : s.current_screen = 1
    · rw [h1] at hmiss
      norm_num at hmiss
    · rw [if_neg h1]
      by_cases h2 : s.current_screen = 2
      · rw [if_pos h2]
        rw [h2] at hmiss
        norm_num at hmiss
        exact settings_touch_miss s x y hmiss
      · rw [if_neg h2]

/-- C10. The invariant `motion_timeout = motion_timeout_seconds * 1000`
holds after construction and is preserved by every `handle_touch` call:
the millisecond timeout used by the motion state machine always equals
1000 times the seconds value edited on the settings screen. -/
theorem motion_timeout_consistent :
    initDisplay.motion_timeout = initDisplay.motion_timeout_seconds * 1000 ∧
    ∀ (s : DisplayState) (x y t : ℤ),
      s.motion_timeout = s.motion_timeout_seconds * 1000 →
      (handle_touch s x y t).motion_timeout
        = (handle_touch s x y t).motion_timeout_seconds * 1000 := by
  refine ⟨rfl, ?_⟩
  intro s x y t hinv
  unfold handle_touch
  dsimp only
  have hb := handle_touch_body_inv
    { s with manual_mode := true, last_touch_time := t } x y hinv
  split_ifs <;> simpa using hb

/-- C10 witness: the invariant survives a concrete touch. -/
theorem motion_timeout_consistent_witness :
    (handle_touch initDisplay 30 60 500).motion_timeout
      = (handle_touch initDisplay 30 60 500).motion_timeout_seconds * 1000 :=
  motion_timeout_consistent.2 initDisplay 30 60 500 rfl

/-- C7. Every touch keeps `motion_timeout_seconds` inside `[5, 300]`
(the decrement buttons clamp at 5, the increment buttons at 300, the
presets lie inside the range), and on the settings screen every hit on
one of the adjustment or preset buttons sets the full-redraw flag. -/
theorem settings_touch_spec :
    (∀ (s : DisplayState) (x y t : ℤ),
      5 ≤ s.motion_timeout_seconds → s.motion_timeout_seconds ≤ 300 →
      5 ≤ (handle_touch s x y t).motion_timeout_seconds ∧
      (handle_touch s x y t).motion_timeout_seconds ≤ 300) ∧
    (∀ (s : DisplayState) (x y t : ℤ),
      s.current_screen = 2 → y < s.height - 40 → inSettingsButton x y →
      (handle_touch s x y t).screen_needs_redraw = true) := by
  constructor
  · intro s x y t h5 h300
    unfold handle_touch
    dsimp only
    have hb := handle_touch_body_range
      { s with manual_mode := true, last_touch_time := t } x y h5 h300
    split_ifs <;> simpa using hb
  · intro s x y t hscreen hnav hbtn
    unfold handle_touch
    dsimp only
    rw [handle_touch_body_settings
      { s with manual_mode := true, last_touch_time := t } x y hscreen hnav]
    split_ifs
    · rfl
    · exact settings_touch_hit _ x y hbtn

/-- C7 witness: a concrete `-10s` button press on the settings
screen. -/
theorem settings_touch_spec_witness :
    (5 ≤ (handle_touch initDisplay 30 60 500).motion_timeout_seconds ∧
     (handle_touch initDisplay 30 60 500).motion_timeout_seconds ≤ 300) ∧
    (handle_touch { initDisplay with current_screen := 2 } 30 60 500).screen_needs_redraw
      = true :=
  ⟨settings_touch_spec.1 initDisplay 30 60 500 (by decide) (by decide),
   settings_touch_spec.2 { initDisplay with current_screen := 2 } 30 60 500 rfl
     (by decide) (by norm_num [inSettingsButton])⟩

/-- C8. A touch above the navigation bar that lies in no hit region
of the current screen leaves `current_screen` unchanged and does not
change the full-redraw flag. -/
theorem touch_miss_spec (s : DisplayState) (x y t : ℤ)
    (hnav : y < s.height - 40) (hmiss : ¬ inHitRegion s.current_screen x y) :
    (handle_touch s x y t).current_screen = s.current_screen ∧
    (handle_touch s x y t).screen_needs_redraw = s.screen_needs_redraw := by
  unfold handle_touch
  dsimp only
  rw [handle_touch_body_miss
    { s with manual_mode := true, last_touch_time := t } x y hnav hmiss]
  rw [if_neg (by simp)]
  exact ⟨rfl, rfl⟩

/-- C8 witness: the gap between the dashboard widget columns at
`(105, 50)`. -/
theorem touch_miss_spec_witness :
    (handle_touch initDisplay 105 50 500).current_screen
      = initDisplay.current_screen ∧
    (handle_touch initDisplay 105 50 500).screen_needs_redraw
      = initDisplay.screen_needs_redraw :=
  touch_miss_spec initDisplay 105 50 500 (by decide)
    (by norm_num [initDisplay, inHitRegion, inMainWidget])


/-- The number of punishment cues in a list of played sounds. -/
def punish_count (l : List Sound) : ℕ := l.count Sound.punishment

/-- The number of reward cues in a list of played sounds. -/
def reward_count (l : List Sound) : ℕ := l.count Sound.reward

/-- Equation form of a no-motion call: the 5 s check gate, then the
timeout test, then the `audio_played` latch. -/
lemma read_motion_sensor_zero (s : MotionState) (t : ℤ) :
    read_motion_sensor s t 0 =
      if t - s.last_motion_check > 5000 then
        if t - s.last_motion_time > s.motion_timeout then
          if s.audio_played then
            ({ s with reward_played := false, last_motion_check := t }, [], false)
          else
            ({ s with reward_played := false, last_motion_check := t,
                      audio_played := true }, [Sound.punishment], false)
        else ({ s with reward_played := false, last_motion_check := t }, [], false)
      else ({ s with reward_played := false }, [], false) := by
  simp [read_motion_sensor]

/-- Equation form of a motion call: motion time recorded, punishment
latch re-armed, reward latched after playing once. -/
lemma read_motion_sensor_one (s : MotionState) (t : ℤ) :
    read_motion_sensor s t 1 =
      ({ s with last_motion_time := t, audio_played := false, reward_played := true },
       if s.reward_played then [] else [Sound.reward], true) := by
  simp [read_motion_sensor]


/-- Once `audio_played` is set, a run of no-motion calls plays no
further punishment cue. -/
lemma punish_latched (inputs : List (ℤ × ℕ)) :
    ∀ s : MotionState, (∀ p ∈ inputs, p.2 = 0) → s.audio_played = true →
      punish_count (run_motion s inputs).2 = 0 := by
  induction inputs with
  | nil =>
    intro s _ _
    simp [run_motion, punish_count]
  | cons hd tl ih =>
    intro s hall ha
    obtain ⟨t, m⟩ := hd
    have hm : m = 0 := hall (t, m) (List.mem_cons_self _ _)
    subst hm
    have htl : ∀ p ∈ tl, p.2 = 0 := fun p hp => hall p (List.mem_cons_of_mem _ hp)
    simp only [run_motion, read_motion_sensor_zero]
    split_ifs with h1 h2
    · simpa [punish_count, List.count_append] using
        ih { s with reward_played := false, last_motion_check := t } htl ha
    · simpa [punish_count, List.count_append] using
        ih { s with reward_played := false, last_motion_check := t } htl ha
    · simpa [punish_count, List.count_append] using
        ih { s with reward_played := false } htl ha

/-- Once `reward_played` is set, a run of motion calls plays no
further reward cue. -/
lemma reward_latched (inputs : List (ℤ × ℕ)) :
    ∀ s : MotionState, (∀ p ∈ inputs, p.2 = 1) → s.reward_played = true →
      reward_count (run_motion s inputs).2 = 0 := by
  induction inputs with
  | nil =>
    intro s _ _
    simp [run_motion, reward_count]
  | cons hd tl ih =>
    intro s hall hr
    obtain ⟨t, m⟩ := hd
    have hm : m = 1 := hall (t, m) (List.mem_cons_self _ _)
    subst hm
    have htl : ∀ p ∈ tl, p.2 = 1 := fun p hp => hall p (List.mem_cons_of_mem _ hp)
    simp only [run_motion, read_motion_sensor_one]
    rw [if_pos hr]
    simpa [reward_count, List.count_append] using
      ih { s with last_motion_time := t, audio_played := false,
                  reward_played := true } htl rfl

/-- Over any run of no-motion calls, at most one punishment cue is
played. -/
lemma punish_at_most_once (inputs : List (ℤ × ℕ)) :
    ∀ s : MotionState, (∀ p ∈ inputs, p.2 = 0) →
      punish_count (run_motion s inputs).2 ≤ 1 := by
  induction inputs with
  | nil =>
    intro s _
    simp [run_motion, punish_count]
  | cons hd tl ih =>
    intro s hall
    obtain ⟨t, m⟩ := hd
    have hm : m = 0 := hall (t, m) (List.mem_cons_self _ _)
    subst hm
    have htl : ∀ p ∈ tl, p.2 = 0 := fun p hp => hall p (List.mem_cons_of_mem _ hp)
    simp only [run_motion, read_motion_sensor_zero]
    split_ifs with h1 h2 h3
    · simpa [punish_count, List.count_append] using
        ih { s with reward_played := false, last_motion_check := t } htl
    · have h0 := punish_latched tl
        { s with reward_played := false, last_motion_check := t, audio_played := true }
        htl rfl
      simp [punish_count, List.count_append] at h0 ⊢
      omega
    · simpa [punish_count, List.count_append] using
        ih { s with reward_played := false, last_motion_check := t } htl
    · simpa [punish_count, List.count_append] using
        ih { s with reward_played := false } htl

/-- Over a run of no-motion calls that all lie beyond the motion
timeout, exactly one punishment cue is played as soon as the 5 s check
gate opens, and none if the gate never opens during the run. -/
lemma punish_exact (inputs : List (ℤ × ℕ)) :
    ∀ s : MotionState, (∀ p ∈ inputs, p.2 = 0) → s.audio_played = false →
      (∀ p ∈ inputs, p.1 - s.last_motion_time > s.motion_timeout) →
      punish_count (run_motion s inputs).2
        = if ∃ p ∈ inputs, p.1 - s.last_motion_check > 5000 then 1 else 0 := by
  induction inputs with
  | nil =>
    intro s _ _ _
    simp [run_motion, punish_count]
  | cons hd tl ih =>
    intro s hall ha helapsed
    obtain ⟨t, m⟩ := hd
    have hm : m = 0 := hall (t, m) (List.mem_cons_self _ _)
    subst hm
    have htl : ∀ p ∈ tl, p.2 = 0 := fun p hp => hall p (List.mem_cons_of_mem _ hp)
    have helt : t - s.last_motion_time > s.motion_timeout :=
      helapsed (t, 0) (List.mem_cons_self _ _)
    have heltl : ∀ p ∈ tl, p.1 - s.last_motion_time > s.motion_timeout :=
      fun p hp => helapsed p (List.mem_cons_of_mem _ hp)
    simp only [run_motion, read_motion_sensor_zero]
    by_cases h1 : t - s.last_motion_check > 5000
    · rw [if_pos h1, if_pos helt, if_neg (by simp [ha])]
      have h0 := punish_latched tl
        { s with reward_played := false, last_motion_check := t, audio_played := true }
        htl rfl
      have hex : ∃ p ∈ (t, (0 : ℕ)) :: tl, p.1 - s.last_motion_check > 5000 :=
        ⟨(t, 0), List.mem_cons_self _ _, h1⟩
      rw [if_pos hex]
      simp [punish_count, List.count_append] at h0 ⊢
      omega
    · rw [if_neg h1]
      have htail := ih { s with reward_played := false } htl ha heltl
      have hiff : (∃ p ∈ (t, (0 : ℕ)) :: tl, p.1 - s.last_motion_check > 5000) ↔
          (∃ p ∈ tl, p.1 - s.last_motion_check > 5000) := by
        constructor
        · rintro ⟨p, hp, hgt⟩
          rcases List.mem_cons.mp hp with rfl | hp2
          · exact absurd hgt h1
          · exact ⟨p, hp2, hgt⟩
        · rintro ⟨p, hp, hgt⟩
          exact ⟨p, List.mem_cons_of_mem _ hp, hgt⟩
      rw [if_congr hiff rfl rfl]
      simpa [punish_count, List.count_append] using htail

/-- A non-empty run of motion calls starting with the reward latch
armed plays exactly one reward cue. -/
lemma reward_once (inputs : List (ℤ × ℕ)) (s : MotionState)
    (hall : ∀ p ∈ inputs, p.2 = 1) (hr : s.reward_played = false)
    (hne : inputs ≠ []) :
    reward_count (run_motion s inputs).2 = 1 := by
  obtain ⟨⟨t, m⟩, tl, rfl⟩ := List.exists_cons_of_ne_nil hne
  have hm : m = 1 := hall (t, m) (List.mem_cons_self _ _)
  subst hm
  have htl : ∀ p ∈ tl, p.2 = 1 := fun p hp => hall p (List.mem_cons_of_mem _ hp)
  simp only [run_motion, read_motion_sensor_one]
  rw [if_neg (by simp [hr])]
  have h0 := reward_latched tl
    { s with last_motion_time := t, audio_played := false, reward_played := true }
    htl rfl
  simp [reward_count, List.count_append] at h0 ⊢
  omega


/-- C2. The motion latches: over any sequence of calls with no motion,
at most one punishment cue is played, and exactly one when every call
lies beyond the motion timeout and the 5 s check gate opens during the
sequence (zero otherwise); a sequence of motion calls entered with the
reward latch armed plays exactly one reward cue; every no-motion call
re-arms the reward latch, and every motion call re-arms the punishment
latch. -/
theorem read_motion_sensor_latch_spec :
    (∀ (inputs : List (ℤ × ℕ)) (s : MotionState),
        (∀ p ∈ inputs, p.2 = 0) →
        punish_count (run_motion s inputs).2 ≤ 1) ∧
    (∀ (inputs : List (ℤ × ℕ)) (s : MotionState),
        (∀ p ∈ inputs, p.2 = 0) → s.audio_played = false →
        (∀ p ∈ inputs, p.1 - s.last_motion_time > s.motion_timeout) →
        punish_count (run_motion s inputs).2
          = if ∃ p ∈ inputs, p.1 - s.last_motion_check > 5000 then 1 else 0) ∧
    (∀ (inputs : List (ℤ × ℕ)) (s : MotionState),
        (∀ p ∈ inputs, p.2 = 1) → s.reward_played = false → inputs ≠ [] →
        reward_count (run_motion s inputs).2 = 1) ∧
    (∀ (s : MotionState) (t : ℤ),
        (read_motion_sensor s t 0).1.reward_played = false) ∧
    (∀ (s : MotionState) (t : ℤ),
        (read_motion_sensor s t 1).1.audio_played = false) := by
  refine ⟨fun inputs s h => punish_at_most_once inputs s h,
          fun inputs s h ha he => punish_exact inputs s h ha he,
          fun inputs s h hr hne => reward_once inputs s h hr hne,
          fun s t => ?_, fun s t => ?_⟩
  · rw [read_motion_sensor_zero]
    split_ifs <;> rfl
  · rw [read_motion_sensor_one]

/-- C2 witness: a timed-out no-motion pair plays one punishment; a
motion pair after stillness plays one reward. -/
theorem read_motion_sensor_latch_spec_witness :
    punish_count (run_motion
      { last_motion_time := 0, last_motion_check := 0, motion_timeout := 30000,
        audio_played := false, reward_played := false }
      [((40000 : ℤ), (0 : ℕ)), (46000, 0)]).2 = 1 ∧
    reward_count (run_motion
      { last_motion_time := 0, last_motion_check := 0, motion_timeout := 30000,
        audio_played := false, reward_played := false }
      [((100 : ℤ), (1 : ℕ)), (200, 1)]).2 = 1 := by
  constructor
  · have h := read_motion_sensor_latch_spec.2.1
      [((40000 : ℤ), (0 : ℕ)), (46000, 0)]
      { last_motion_time := 0, last_motion_check := 0, motion_timeout := 30000,
        audio_played := false, reward_played := false }
      (by decide) rfl (by decide)
    simpa using h
  · exact read_motion_sensor_latch_spec.2.2.1
      [((100 : ℤ), (1 : ℕ)), (200, 1)]
      { last_motion_time := 0, last_motion_check := 0, motion_timeout := 30000,
        audio_played := false, reward_played := false }
      (by decide) rfl (by decide)


end SmartPot
